import Mathlib

/-!
Shallow embedding of the YAYA Uptime worker (src/index.js).

The source file holds two revisions of the worker. The first (legacy MVP,
lines 1 to 220) and the second, current worker (lines 221 to 800) share the
same data model. External collaborators (browser capture, R2 object store,
PNG codec, pixelmatch, Supabase, Resend) are modelled as an explicit
environment record of pure functions; the embedded definitions translate the
control flow of the source functions over that environment.
-/

namespace YayaUptime

/-- Binary blobs (PNG buffers) are modelled as lists of bytes. -/
abbrev Buffer : Type := List Nat

/-- A decoded PNG as produced by PNG.sync.read: width, height and pixel data. -/
structure PNGImage where
  width : Nat
  height : Nat
  data : List Nat
deriving DecidableEq

/-- Store lifecycle status; the stores table holds active or inactive. -/
inductive StoreStatus where
  | active
  | inactive
deriving DecidableEq

/-- One row of the stores table, the fields the worker reads and writes. -/
structure Store where
  id : Nat
  url : String
  baseline_homepage_url : Option String
  failed_attempts : Nat
  status : StoreStatus
deriving DecidableEq

/-- JavaScript truthiness of a nullable string: null, undefined and the
empty string are falsy. -/
def truthyStr : Option String → Bool
  | none => false
  | some s => !s.isEmpty

/-- Constant from src/index.js line 269. -/
def DIFF_THRESHOLD_PERCENT : ℚ := 5

/-- Constant from src/index.js line 270. -/
def MAX_FAILURES_BEFORE_INACTIVE : Nat := 5

/-- JavaScript Math.round on an exact rational: floor of x + 1/2. -/
def jsRound (q : ℚ) : ℤ := ⌊q + 1/2⌋

/-- Rounding to two decimal places as written in the source:
Math.round with the value scaled by 100 and divided by 100 again. -/
def round2 (q : ℚ) : ℚ := ((jsRound (q * 100) : ℤ) : ℚ) / 100

/-- Environment of external collaborators for one processStore invocation.
Fields model, in order: the browser capture and screenshot upload (result is
the raw buffer and its public URL, or a thrown error message); URL parsing
(pathname of a WHATWG URL, none when the URL constructor throws); R2
download by key (none when the request fails); PNG decoding (none when
PNG.sync.read throws); the pixelmatch call (data, data, width, height to a
count of differing pixels); the ghost-overlay write, compression and upload
(id and timestamp to the public diff URL, none when any of those steps
throws); whether the alerts insert succeeds; and the timestamp string used
in keys. -/
structure Env where
  captureAndUpload : Except String (Buffer × String)
  urlPathname : String → Option String
  r2 : String → Option Buffer
  decode : Buffer → Option PNGImage
  pixelmatchCount : List Nat → List Nat → Nat → Nat → Nat
  overlayUpload : Nat → String → Option String
  alertInsertOk : Bool
  timestamp : String

/-- Translation of extractR2Key (src/index.js lines 325 to 332): null or
empty input gives null, otherwise the pathname of the parsed URL without its
leading slash, and null when the URL constructor throws. -/
def extractR2Key (env : Env) (publicUrl : Option String) : Option String :=
  if truthyStr publicUrl then
    (env.urlPathname (publicUrl.getD "")).map (fun p => p.drop 1)
  else
    none

/-- Translation of downloadFromR2 (src/index.js lines 312 to 323): a null
key gives null, and a failed download is caught and gives null. -/
def downloadFromR2 (env : Env) (key : Option String) : Option Buffer :=
  match key with
  | none => none
  | some k => env.r2 k

/-- The object returned by a compareImages call, with every key either
revision may set; keys a branch leaves undefined default to none or false. -/
structure CompareResult where
  hasSignificantDiff : Bool
  dimensionChanged : Bool := false
  diffPercentage : Option ℚ := none
  diffUrl : Option String := none
  error : Bool := false
  shouldUpdateBaseline : Bool := false
deriving DecidableEq

/-- Translation of the current compareImages (src/index.js lines 338 to
378). PNG.sync.read throws on an absent or undecodable buffer and the
surrounding try/catch then returns the error result; on a dimension
mismatch the dimensionChanged result is returned before pixelmatch runs;
otherwise pixelmatch produces the differing-pixel count, the percentage is
count over width times height times 100, and the overlay is written,
compressed and uploaded before the result is built — a throw anywhere in
that overlay step is caught by the same try/catch and also yields the error
result. The success result carries the significance flag computed from the
raw percentage and the percentage rounded to two decimals. -/
def compareImages (env : Env) (baselineBuffer newBuffer : Option Buffer)
    (id : Nat) (timestamp : String) : CompareResult :=
  match baselineBuffer.bind env.decode, newBuffer.bind env.decode with
  | some baselinePng, some newPng =>
    if baselinePng.width ≠ newPng.width ∨ baselinePng.height ≠ newPng.height then
      { hasSignificantDiff := false, dimensionChanged := true }
    else
      let numDiffPixels :=
        env.pixelmatchCount baselinePng.data newPng.data baselinePng.width baselinePng.height
      let diffPercentage : ℚ :=
        (numDiffPixels : ℚ) / ((baselinePng.width : ℚ) * (baselinePng.height : ℚ)) * 100
      match env.overlayUpload id timestamp with
      | some diffUrl =>
        { hasSignificantDiff := diffPercentage > DIFF_THRESHOLD_PERCENT,
          diffPercentage := some (round2 diffPercentage),
          diffUrl := some diffUrl }
      | none => { hasSignificantDiff := false, error := true }
  | _, _ => { hasSignificantDiff := false, error := true }

/-- Translation of the legacy compareImages (src/index.js lines 72 to 107):
an absent buffer or a decode failure returns significant true with
percentage 100; a dimension mismatch returns the same with
shouldUpdateBaseline set; otherwise the percentage is unrounded and
compared against the environment-configured threshold. -/
def compareImagesLegacy (threshold : ℚ) (env : Env)
    (baselineBuffer newBuffer : Option Buffer) : CompareResult :=
  match baselineBuffer, newBuffer with
  | some bb, some nb =>
    match env.decode bb, env.decode nb with
    | some baselinePng, some newPng =>
      if baselinePng.width ≠ newPng.width ∨ baselinePng.height ≠ newPng.height then
        { hasSignificantDiff := true, diffPercentage := some 100,
          shouldUpdateBaseline := true }
      else
        let numDiffPixels :=
          env.pixelmatchCount baselinePng.data newPng.data baselinePng.width baselinePng.height
        let diffPercentage : ℚ :=
          (numDiffPixels : ℚ) / ((baselinePng.width : ℚ) * (baselinePng.height : ℚ)) * 100
        { hasSignificantDiff := diffPercentage > threshold,
          diffPercentage := some diffPercentage }
    | _, _ => { hasSignificantDiff := true, diffPercentage := some 100 }
  | _, _ => { hasSignificantDiff := true, diffPercentage := some 100 }

/-- One row inserted into the alerts table by processStore. -/
structure Alert where
  store_id : Nat
  step : String
  before_url : String
  after_url : String
  diff_url : Option String
  diff_percentage : Option ℚ
  type : String
deriving DecidableEq

/-- Status recorded on the runs row for one pipeline invocation. -/
inductive RunStatus where
  | success
  | error
deriving DecidableEq

/-- The database effects of one processStore invocation: the value of the
baseline reference afterwards, the alerts inserted, the failed_attempts and
status fields afterwards, the status and diff percentage recorded on the
runs row inserted in the finally block, whether compareImages was invoked,
and whether an alert email dispatch was attempted. -/
structure ProcOutcome where
  baselineAfter : Option String
  alertsCreated : List Alert
  failedAttemptsAfter : Nat
  statusAfter : StoreStatus
  runStatus : RunStatus
  runDiffPercentage : Option ℚ
  comparePerformed : Bool
  emailSent : Bool
deriving DecidableEq

/-- The failure keyword list of src/index.js lines 648 to 656. -/
def failureKeywords : List String :=
  ["ERR_NAME_NOT_RESOLVED", "getaddrinfo", "ECONNREFUSED", "timeout",
   "ENOTFOUND", "ERR_CONNECTION_REFUSED", "ERR_CONNECTION_TIMED_OUT"]

/-- JavaScript String.prototype.includes: substring containment. -/
def containsSub (hay needle : String) : Bool :=
  decide (List.IsInfix needle.toList hay.toList)

/-- The connectivity classification of src/index.js line 658: the thrown
message contains one of the failure keywords. -/
def isConnectivityError (msg : String) : Bool :=
  failureKeywords.any (fun kw => containsSub msg kw)

/-- Translation of processStore (src/index.js lines 526 to 691). A thrown
capture error is caught; when its message matches a failure keyword the
counter is incremented and the store inactivated at the threshold,
otherwise the store row is untouched, and either way the runs row records
an error. On a successful capture the counter is reset to 0, then: a falsy
baseline adopts the screenshot as baseline with no comparison; an
unreadable baseline does the same; otherwise compareImages runs and its
result is dispatched — dimensionChanged updates the baseline, a significant
diff inserts one alert (baseline untouched) and attempts an email when the
insert succeeds, and anything else updates the baseline with no alert. The
finally block always records the runs row with the diff percentage of the
comparison when one happened. -/
def processStore (env : Env) (store : Store) : ProcOutcome :=
  match env.captureAndUpload with
  | Except.error msg =>
    if isConnectivityError msg then
      let count := store.failed_attempts + 1
      { baselineAfter := store.baseline_homepage_url,
        alertsCreated := [],
        failedAttemptsAfter := count,
        statusAfter :=
          if MAX_FAILURES_BEFORE_INACTIVE ≤ count then StoreStatus.inactive else store.status,
        runStatus := RunStatus.error,
        runDiffPercentage := none,
        comparePerformed := false,
        emailSent := false }
    else
      { baselineAfter := store.baseline_homepage_url,
        alertsCreated := [],
        failedAttemptsAfter := store.failed_attempts,
        statusAfter := store.status,
        runStatus := RunStatus.error,
        runDiffPercentage := none,
        comparePerformed := false,
        emailSent := false }
  | Except.ok (buffer, screenshotUrl) =>
    if truthyStr store.baseline_homepage_url then
      match downloadFromR2 env (extractR2Key env store.baseline_homepage_url) with
      | none =>
        { baselineAfter := some screenshotUrl,
          alertsCreated := [],
          failedAttemptsAfter := 0,
          statusAfter := store.status,
          runStatus := RunStatus.success,
          runDiffPercentage := none,
          comparePerformed := false,
          emailSent := false }
      | some baselineBuffer =>
        let diffResult :=
          compareImages env (some baselineBuffer) (some buffer) store.id env.timestamp
        if diffResult.dimensionChanged then
          { baselineAfter := some screenshotUrl,
            alertsCreated := [],
            failedAttemptsAfter := 0,
            statusAfter := store.status,
            runStatus := RunStatus.success,
            runDiffPercentage := diffResult.diffPercentage,
            comparePerformed := true,
            emailSent := false }
        else if diffResult.hasSignificantDiff then
          if env.alertInsertOk then
            { baselineAfter := store.baseline_homepage_url,
              alertsCreated :=
                [{ store_id := store.id,
                   step := "homepage",
                   before_url := store.baseline_homepage_url.getD "",
                   after_url := screenshotUrl,
                   diff_url := diffResult.diffUrl,
                   diff_percentage := diffResult.diffPercentage,
                   type := if diffResult.diffPercentage.getD 0 > 20 then "red" else "yellow" }],
              failedAttemptsAfter := 0,
              statusAfter := store.status,
              runStatus := RunStatus.success,
              runDiffPercentage := diffResult.diffPercentage,
              comparePerformed := true,
              emailSent := true }
          else
            { baselineAfter := store.baseline_homepage_url,
              alertsCreated := [],
              failedAttemptsAfter := 0,
              statusAfter := store.status,
              runStatus := RunStatus.success,
              runDiffPercentage := diffResult.diffPercentage,
              comparePerformed := true,
              emailSent := false }
        else
          { baselineAfter := some screenshotUrl,
            alertsCreated := [],
            failedAttemptsAfter := 0,
            statusAfter := store.status,
            runStatus := RunStatus.success,
            runDiffPercentage := diffResult.diffPercentage,
            comparePerformed := true,
            emailSent := false }
    else
      { baselineAfter := some screenshotUrl,
        alertsCreated := [],
        failedAttemptsAfter := 0,
        statusAfter := store.status,
        runStatus := RunStatus.success,
        runDiffPercentage := none,
        comparePerformed := false,
        emailSent := false }

/-- The store row after one processStore invocation. -/
def storeAfter (env : Env) (store : Store) : Store :=
  let o := processStore env store
  { store with
      baseline_homepage_url := o.baselineAfter,
      failed_attempts := o.failedAttemptsAfter,
      status := o.statusAfter }

/-- Folding a sequence of processStore invocations over a store row. -/
def applyAll (envs : List Env) (s : Store) : Store :=
  envs.foldl (fun st e => storeAfter e st) s

/-- One row of the ping_logs table, the fields pingStore reads back.
Rows are kept in insertion order, which matches checked_at order because
the default checked_at timestamp is monotone across awaited inserts. -/
structure PingLog where
  store_id : Nat
  is_up : Bool
deriving DecidableEq

/-- The up/down classification of src/index.js lines 479 to 498: a fetch
that resolves is up exactly when its status is in the 2xx range, and a
fetch that throws (timeout, abort, transport error) is down. -/
def pingIsUp : Except String Nat → Bool
  | Except.ok statusCode => decide (200 ≤ statusCode) && decide (statusCode < 300)
  | Except.error _ => false

/-- Translation of pingStore (src/index.js lines 464 to 520). The current
observation is classified, a ping_logs row for it is inserted first, and
only then, when the observation is down, the most recent ping_logs row for
the store (order by checked_at descending, limit 1) is read back; the alert
email is dispatched when that row is down. Returns the table afterwards and
whether the alert was dispatched. -/
def pingStore (logs : List PingLog) (storeId : Nat) (fetchResult : Except String Nat) :
    List PingLog × Bool :=
  let isUp := pingIsUp fetchResult
  let logs2 := logs ++ [{ store_id := storeId, is_up := isUp }]
  if isUp then
    (logs2, false)
  else
    match (logs2.filter (fun l => l.store_id == storeId)).getLast? with
    | some lastPing => (logs2, lastPing.is_up == false)
    | none => (logs2, false)

/-- What executing the body of a visual cycle would do: how many runs
rows its store iteration inserts, and the message of a cycle-level error
caught by the catch block, if one is thrown. -/
structure CycleBody where
  runsCreated : Nat
  cycleError : Option String
deriving DecidableEq

/-- The observable effect of one scheduler tick: the busy flag afterwards,
the runs rows created, and whether the guarded body ran at all. -/
structure TickOutcome where
  flagAfter : Bool
  runsCreated : Nat
  bodyExecuted : Bool
deriving DecidableEq

/-- Translation of runVisualChecks (src/index.js lines 697 to 737): when
the isRunningVisual flag is already set the tick logs and returns without
selecting or processing any store; otherwise the flag is set, the body runs
with its errors caught, and the finally block clears the flag whether or
not the body threw. -/
def runVisualChecks (isRunningVisual : Bool) (body : CycleBody) : TickOutcome :=
  if isRunningVisual then
    { flagAfter := isRunningVisual, runsCreated := 0, bodyExecuted := false }
  else
    { flagAfter := false, runsCreated := body.runsCreated, bodyExecuted := true }

/-!
Concrete environments and stores used to instantiate the theorems below.
-/

/-- An environment whose capture succeeds but whose R2 downloads fail. -/
def sampleEnv : Env where
  captureAndUpload := Except.ok ([0], "https://pub.example.dev/new.png")
  urlPathname := fun _ => some "/base.png"
  r2 := fun _ => none
  decode := fun _ => none
  pixelmatchCount := fun _ _ _ _ => 0
  overlayUpload := fun _ _ => some "https://pub.example.dev/diff.png"
  alertInsertOk := true
  timestamp := "t"

/-- An environment with a readable two-by-two baseline where every pixel
differs and the overlay upload succeeds. -/
def diffEnv : Env where
  captureAndUpload := Except.ok ([1], "https://pub.example.dev/new.png")
  urlPathname := fun _ => some "/base.png"
  r2 := fun _ => some [0]
  decode := fun b => some { width := 2, height := 2, data := b }
  pixelmatchCount := fun _ _ _ _ => 4
  overlayUpload := fun _ _ => some "https://pub.example.dev/diff.png"
  alertInsertOk := true
  timestamp := "t"

/-- The same situation as diffEnv except that writing or uploading the
ghost overlay throws. -/
def overlayFailEnv : Env where
  captureAndUpload := Except.ok ([1], "https://pub.example.dev/new.png")
  urlPathname := fun _ => some "/base.png"
  r2 := fun _ => some [0]
  decode := fun b => some { width := 2, height := 2, data := b }
  pixelmatchCount := fun _ _ _ _ => 4
  overlayUpload := fun _ _ => none
  alertInsertOk := true
  timestamp := "t"

/-- An environment whose baseline decodes to two-by-two and whose new
capture decodes to two-by-three: a dimension change. -/
def dimEnv : Env where
  captureAndUpload := Except.ok ([1], "https://pub.example.dev/new.png")
  urlPathname := fun _ => some "/base.png"
  r2 := fun _ => some [0]
  decode := fun b => some { width := 2, height := if b = [0] then 2 else 3, data := b }
  pixelmatchCount := fun _ _ _ _ => 4
  overlayUpload := fun _ _ => some "https://pub.example.dev/diff.png"
  alertInsertOk := true
  timestamp := "t"

/-- An environment whose capture throws a connectivity-classified error. -/
def connFailEnv : Env where
  captureAndUpload := Except.error "net::ERR_CONNECTION_REFUSED at https://example.com"
  urlPathname := fun _ => some "/base.png"
  r2 := fun _ => none
  decode := fun _ => none
  pixelmatchCount := fun _ _ _ _ => 0
  overlayUpload := fun _ _ => none
  alertInsertOk := true
  timestamp := "t"

/-- An environment whose stored baseline URL does not parse as a URL. -/
def badUrlEnv : Env where
  captureAndUpload := Except.ok ([0], "https://pub.example.dev/new.png")
  urlPathname := fun _ => none
  r2 := fun _ => some [0]
  decode := fun _ => none
  pixelmatchCount := fun _ _ _ _ => 0
  overlayUpload := fun _ _ => some "https://pub.example.dev/diff.png"
  alertInsertOk := true
  timestamp := "t"

/-- A store row with a baseline reference and a clean failure counter. -/
def storeWithBaseline : Store where
  id := 7
  url := "example.com"
  baseline_homepage_url := some "https://pub.example.dev/base.png"
  failed_attempts := 0
  status := StoreStatus.active

/-- A store row with no baseline reference yet. -/
def freshStore : Store where
  id := 3
  url := "example.com"
  baseline_homepage_url := none
  failed_attempts := 0
  status := StoreStatus.active

/-- A store row whose baseline reference is a non-empty string that is not
a parseable URL. -/
def badBaselineStore : Store where
  id := 9
  url := "example.com"
  baseline_homepage_url := some "not a url"
  failed_attempts := 0
  status := StoreStatus.active

/-!
Theorems settling the claims.
-/

/-- Evaluation rule for round2: the two-decimal rounding of q is z over 100
whenever z is the integer bracketing q times 100 plus one half. -/
theorem round2_eq (q : ℚ) (z : ℤ) (h1 : (z : ℚ) ≤ q * 100 + 1/2)
    (h2 : q * 100 + 1/2 < (z : ℚ) + 1) : round2 q = (z : ℚ) / 100 := by
  unfold round2 jsRound
  rw [Int.floor_eq_iff.mpr ⟨h1, by exact_mod_cast h2⟩]

/-- Claim C1: the prober is meant to dispatch a down-alert only when the
PingLog immediately preceding the current observation was also down, so a
single down observation after an up observation must produce no alert. The
code inserts the current down log before querying the most recent log, so
the guard reads the log it just wrote and dispatches on the very first down
observation after an up: evaluated at that failing input, the alert is
dispatched. -/
theorem pingStore_alert_on_first_down :
    (pingStore [{ store_id := 1, is_up := true }] 1 (Except.error "timeout")).2 = true := by
  decide

/-- Claim C2, counterexample: for the current compareImages, an absent
baseline buffer does not yield significant true with percentage 100; the
caught decode exception yields significant false with the error flag and no
percentage. -/
theorem compareImages_absent_input_not_significant :
    (compareImages sampleEnv none (some [0]) 1 "t").hasSignificantDiff = false ∧
    (compareImages sampleEnv none (some [0]) 1 "t").error = true ∧
    (compareImages sampleEnv none (some [0]) 1 "t").diffPercentage = none := by
  decide

/-- Claim C2, amended: when either input buffer is absent or fails to
decode, neither revision of compareImages raises; the legacy compareImages
returns significant true with percentage 100, while the current
compareImages fails closed to significant false with the error flag set. -/
theorem compare_fails_closed_both_revisions (threshold : ℚ) (env : Env)
    (b n : Option Buffer) (id : Nat) (ts : String)
    (h : b.bind env.decode = none ∨ n.bind env.decode = none) :
    compareImagesLegacy threshold env b n =
      { hasSignificantDiff := true, diffPercentage := some 100 } ∧
    compareImages env b n id ts = { hasSignificantDiff := false, error := true } := by
  constructor
  · cases b with
    | none => cases n <;> simp [compareImagesLegacy]
    | some bb =>
      cases n with
      | none => simp [compareImagesLegacy]
      | some nb =>
        simp only [Option.some_bind] at h
        cases hdb : env.decode bb with
        | none =>
          cases hdn : env.decode nb <;> simp [compareImagesLegacy, hdb, hdn]
        | some P1 =>
          cases hdn : env.decode nb with
          | none => simp [compareImagesLegacy, hdb, hdn]
          | some P2 =>
            rcases h with h | h
            · exact absurd (hdb ▸ h) (by simp)
            · exact absurd (hdn ▸ h) (by simp)
  · cases hdb : b.bind env.decode with
    | none =>
      cases hdn : n.bind env.decode <;> simp [compareImages, hdb, hdn]
    | some P1 =>
      cases hdn : n.bind env.decode with
      | none => simp [compareImages, hdb, hdn]
      | some P2 =>
        rcases h with h | h
        · exact absurd (hdb ▸ h) (by simp)
        · exact absurd (hdn ▸ h) (by simp)

/-- Claim C2, witness for the amended theorem at a concrete input: an
absent baseline buffer against a present new buffer. -/
theorem compare_fails_closed_both_revisions_witness :
    compareImagesLegacy 5 sampleEnv none (some [0]) =
      { hasSignificantDiff := true, diffPercentage := some 100 } ∧
    compareImages sampleEnv none (some [0]) 1 "t" =
      { hasSignificantDiff := false, error := true } :=
  compare_fails_closed_both_revisions 5 sampleEnv none (some [0]) 1 "t" (Or.inl rfl)

/-- Claim C8: a tick of the visual driver whose busy flag is already set is
skipped entirely, executing no body and creating zero runs rows, and every
non-skipped tick ends with the flag cleared whatever the body did,
including when the body threw a cycle-level error. -/
theorem scheduler_skip_if_busy :
    (∀ body : CycleBody, runVisualChecks true body =
      { flagAfter := true, runsCreated := 0, bodyExecuted := false }) ∧
    (∀ body : CycleBody, (runVisualChecks false body).flagAfter = false ∧
      (runVisualChecks false body).bodyExecuted = true ∧
      (runVisualChecks false body).runsCreated = body.runsCreated) := by
  constructor <;> intro body <;> simp [runVisualChecks]

/-- Claim C9: a pipeline invocation on a store with a falsy baseline
reference, or whose baseline artifact cannot be read back from the artifact
store, adopts the captured artifact as the new baseline, performs no
comparison, and creates zero alerts. -/
theorem processStore_missing_baseline_adopts
    (env : Env) (store : Store) (buffer : Buffer) (screenshotUrl : String)
    (hcap : env.captureAndUpload = Except.ok (buffer, screenshotUrl))
    (h : truthyStr store.baseline_homepage_url = false ∨
      downloadFromR2 env (extractR2Key env store.baseline_homepage_url) = none) :
    (processStore env store).baselineAfter = some screenshotUrl ∧
    (processStore env store).alertsCreated = [] ∧
    (processStore env store).comparePerformed = false := by
  rcases h with h | h
  · simp [processStore, hcap, h]
  · by_cases ht : truthyStr store.baseline_homepage_url
    · simp [processStore, hcap, ht, h]
    · simp [processStore, hcap, ht]

/-- Claim C9, witness: a store with a baseline reference whose artifact
download fails. -/
theorem processStore_missing_baseline_adopts_witness :
    (processStore sampleEnv storeWithBaseline).baselineAfter =
      some "https://pub.example.dev/new.png" ∧
    (processStore sampleEnv storeWithBaseline).alertsCreated = [] ∧
    (processStore sampleEnv storeWithBaseline).comparePerformed = false :=
  processStore_missing_baseline_adopts sampleEnv storeWithBaseline [0]
    "https://pub.example.dev/new.png" rfl (Or.inr rfl)

/-- Claim C10: a stored baseline reference that is a non-empty string but
not a parseable URL does not make the pipeline raise: key extraction
returns null through the caught URL-constructor exception, the download of
a null key returns null, and the invocation lands in the missing-baseline
branch, adopting the new capture as baseline with no comparison and no
alert. -/
theorem processStore_unparseable_baseline
    (env : Env) (store : Store) (buffer : Buffer) (screenshotUrl s : String)
    (hcap : env.captureAndUpload = Except.ok (buffer, screenshotUrl))
    (hbase : store.baseline_homepage_url = some s)
    (hne : s.isEmpty = false)
    (hparse : env.urlPathname s = none) :
    extractR2Key env (some s) = none ∧
    downloadFromR2 env (extractR2Key env (some s)) = none ∧
    (processStore env store).baselineAfter = some screenshotUrl ∧
    (processStore env store).alertsCreated = [] ∧
    (processStore env store).comparePerformed = false := by
  have hkey : extractR2Key env (some s) = none := by
    simp [extractR2Key, truthyStr, hne, hparse]
  refine ⟨hkey, by simp [downloadFromR2, hkey], ?_⟩
  have hdl : downloadFromR2 env (extractR2Key env store.baseline_homepage_url) = none := by
    rw [hbase, hkey]; rfl
  exact (processStore_missing_baseline_adopts env store buffer screenshotUrl hcap (Or.inr hdl))

/-- Claim C10, witness: the baseline reference is the non-empty,
unparseable string used by badBaselineStore. -/
theorem processStore_unparseable_baseline_witness :
    extractR2Key badUrlEnv (some "not a url") = none ∧
    downloadFromR2 badUrlEnv (extractR2Key badUrlEnv (some "not a url")) = none ∧
    (processStore badUrlEnv badBaselineStore).baselineAfter =
      some "https://pub.example.dev/new.png" ∧
    (processStore badUrlEnv badBaselineStore).alertsCreated = [] ∧
    (processStore badUrlEnv badBaselineStore).comparePerformed = false :=
  processStore_unparseable_baseline badUrlEnv badBaselineStore [0]
    "https://pub.example.dev/new.png" "not a url" rfl rfl rfl rfl

/-- Claim C5: when both images decode and their dimensions differ, the
comparison reports a dimension change before the pixel comparator ever
runs, and the pipeline silently replaces the baseline with the new artifact
and creates no alert, whatever the pixel content (the pixelmatch function
inside the environment is arbitrary). -/
theorem processStore_dimension_change_silent_reset
    (env : Env) (store : Store) (buffer baselineBuffer : Buffer)
    (screenshotUrl : String) (P1 P2 : PNGImage)
    (hcap : env.captureAndUpload = Except.ok (buffer, screenshotUrl))
    (ht : truthyStr store.baseline_homepage_url = true)
    (hdl : downloadFromR2 env (extractR2Key env store.baseline_homepage_url) =
      some baselineBuffer)
    (h1 : env.decode baselineBuffer = some P1)
    (h2 : env.decode buffer = some P2)
    (hdim : P1.width ≠ P2.width ∨ P1.height ≠ P2.height) :
    compareImages env (some baselineBuffer) (some buffer) store.id env.timestamp =
      { hasSignificantDiff := false, dimensionChanged := true } ∧
    (processStore env store).baselineAfter = some screenshotUrl ∧
    (processStore env store).alertsCreated = [] := by
  have hcmp : compareImages env (some baselineBuffer) (some buffer) store.id env.timestamp =
      { hasSignificantDiff := false, dimensionChanged := true } := by
    simp only [compareImages, Option.some_bind, h1, h2]
    rw [if_pos hdim]
  refine ⟨hcmp, ?_⟩
  simp [processStore, hcap, ht, hdl, hcmp]

/-- Claim C5, witness: a two-by-two baseline against a two-by-three
capture. -/
theorem processStore_dimension_change_silent_reset_witness :
    compareImages dimEnv (some [0]) (some [1]) storeWithBaseline.id dimEnv.timestamp =
      { hasSignificantDiff := false, dimensionChanged := true } ∧
    (processStore dimEnv storeWithBaseline).baselineAfter =
      some "https://pub.example.dev/new.png" ∧
    (processStore dimEnv storeWithBaseline).alertsCreated = [] :=
  processStore_dimension_change_silent_reset dimEnv storeWithBaseline [1] [0]
    "https://pub.example.dev/new.png"
    { width := 2, height := 2, data := [0] } { width := 2, height := 3, data := [1] }
    rfl rfl rfl rfl rfl (Or.inr (by decide))

/-- Claim C6: on equal dimensions with a successful overlay upload and a
comparator-reported count of p differing pixels out of t total, the
significance flag holds exactly when p over t times 100 exceeds
DIFF_THRESHOLD_PERCENT, and the returned percentage is p over t times 100
rounded to two decimal places. -/
theorem compareImages_percentage
    (env : Env) (bb nb : Buffer) (id : Nat) (ts : String)
    (P1 P2 : PNGImage) (u : String) (p t : Nat)
    (h1 : env.decode bb = some P1)
    (h2 : env.decode nb = some P2)
    (hw : P1.width = P2.width)
    (hh : P1.height = P2.height)
    (hov : env.overlayUpload id ts = some u)
    (hp : env.pixelmatchCount P1.data P2.data P1.width P1.height = p)
    (ht : P1.width * P1.height = t) :
    ((compareImages env (some bb) (some nb) id ts).hasSignificantDiff = true ↔
      (p : ℚ) / (t : ℚ) * 100 > DIFF_THRESHOLD_PERCENT) ∧
    (compareImages env (some bb) (some nb) id ts).diffPercentage =
      some (round2 ((p : ℚ) / (t : ℚ) * 100)) ∧
    (compareImages env (some bb) (some nb) id ts).diffUrl = some u := by
  have hcast : ((P1.width : ℚ) * (P1.height : ℚ)) = (t : ℚ) := by
    rw [← ht]; push_cast; ring
  have hkey : compareImages env (some bb) (some nb) id ts =
      { hasSignificantDiff := decide ((p : ℚ) / (t : ℚ) * 100 > DIFF_THRESHOLD_PERCENT),
        diffPercentage := some (round2 ((p : ℚ) / (t : ℚ) * 100)),
        diffUrl := some u } := by
    simp only [compareImages, Option.some_bind, h1, h2]
    rw [if_neg (by simp [hw, hh])]
    simp only [hov, hp, hcast]
  rw [hkey]
  exact ⟨by simp, rfl, rfl⟩

/-- Claim C6, witness: four differing pixels out of four at a threshold of
five percent: significant, and the stored percentage is exactly 100. -/
theorem compareImages_percentage_witness :
    (((compareImages diffEnv (some [0]) (some [1]) 7 "t").hasSignificantDiff = true ↔
      (4 : ℚ) / (4 : ℚ) * 100 > DIFF_THRESHOLD_PERCENT) ∧
    (compareImages diffEnv (some [0]) (some [1]) 7 "t").diffPercentage =
      some (round2 ((4 : ℚ) / (4 : ℚ) * 100)) ∧
    (compareImages diffEnv (some [0]) (some [1]) 7 "t").diffUrl =
      some "https://pub.example.dev/diff.png") ∧
    round2 ((4 : ℚ) / (4 : ℚ) * 100) = 100 :=
  ⟨compareImages_percentage diffEnv [0] [1] 7 "t"
    { width := 2, height := 2, data := [0] } { width := 2, height := 2, data := [1] }
    "https://pub.example.dev/diff.png" 4 4 rfl rfl rfl rfl rfl rfl rfl,
   by rw [round2_eq ((4 : ℚ) / (4 : ℚ) * 100) 10000 (by norm_num) (by norm_num)]; norm_num⟩

/-- Claim C4: on a readable baseline whose comparison reports a significant
same-dimension diff and whose alert insert succeeds, exactly one alert is
created carrying the old baseline reference as before, the new artifact
reference as after, the stored diff percentage, and type red exactly when
that percentage exceeds 20 and yellow otherwise; the baseline reference is
not advanced, and the runs row records success with that percentage. -/
theorem processStore_significant_diff_alert
    (env : Env) (store : Store) (buffer baselineBuffer : Buffer)
    (screenshotUrl baseUrl : String) (r : CompareResult) (pct : ℚ) (du : Option String)
    (hcap : env.captureAndUpload = Except.ok (buffer, screenshotUrl))
    (hbase : store.baseline_homepage_url = some baseUrl)
    (hne : baseUrl.isEmpty = false)
    (hdl : downloadFromR2 env (extractR2Key env store.baseline_homepage_url) =
      some baselineBuffer)
    (hr : compareImages env (some baselineBuffer) (some buffer) store.id env.timestamp = r)
    (hdim : r.dimensionChanged = false)
    (hsig : r.hasSignificantDiff = true)
    (hpct : r.diffPercentage = some pct)
    (hdu : r.diffUrl = du)
    (hok : env.alertInsertOk = true) :
    (processStore env store).alertsCreated =
      [{ store_id := store.id, step := "homepage", before_url := baseUrl,
         after_url := screenshotUrl, diff_url := du,
         diff_percentage := some pct,
         type := if pct > 20 then "red" else "yellow" }] ∧
    (processStore env store).baselineAfter = some baseUrl ∧
    (processStore env store).runStatus = RunStatus.success ∧
    (processStore env store).runDiffPercentage = some pct := by
  have ht : truthyStr store.baseline_homepage_url = true := by
    simp [truthyStr, hbase, hne]
  simp only [processStore, hcap]
  rw [if_pos ht]
  simp only [hdl, hr]
  simp [hdim, hsig, hok, hpct, hdu, hbase]

/-- Claim C4, witness: a four-pixel image fully changed, stored percentage
100, type red, baseline left at the old reference. -/
theorem processStore_significant_diff_alert_witness :
    (processStore diffEnv storeWithBaseline).alertsCreated =
      [{ store_id := 7, step := "homepage",
         before_url := "https://pub.example.dev/base.png",
         after_url := "https://pub.example.dev/new.png",
         diff_url := some "https://pub.example.dev/diff.png",
         diff_percentage := some 100,
         type := "red" }] ∧
    (processStore diffEnv storeWithBaseline).baselineAfter =
      some "https://pub.example.dev/base.png" ∧
    (processStore diffEnv storeWithBaseline).runStatus = RunStatus.success ∧
    (processStore diffEnv storeWithBaseline).runDiffPercentage = some 100 := by
  have hc : compareImages diffEnv (some [0]) (some [1]) storeWithBaseline.id diffEnv.timestamp =
      { hasSignificantDiff := true, diffPercentage := some 100,
        diffUrl := some "https://pub.example.dev/diff.png" } := by
    simp only [compareImages, diffEnv, storeWithBaseline, Option.some_bind]
    norm_num [DIFF_THRESHOLD_PERCENT]
    rw [round2_eq _ 10000 (by norm_num) (by norm_num)]
    norm_num
  have h := processStore_significant_diff_alert diffEnv storeWithBaseline [1] [0]
    "https://pub.example.dev/new.png" "https://pub.example.dev/base.png"
    { hasSignificantDiff := true, diffPercentage := some 100,
      diffUrl := some "https://pub.example.dev/diff.png" }
    100 (some "https://pub.example.dev/diff.png")
    rfl rfl rfl rfl hc rfl rfl rfl rfl rfl
  norm_num at h
  exact h

/-- Claim C3, counterexample: with equal dimensions, every pixel differing
(well above the threshold) and the overlay upload failing, the comparison
reports the error result and the pipeline creates zero alerts — the claim
that overlay failure still results in an alert is false on this input. -/
theorem processStore_overlay_failure_no_alert_cex :
    compareImages overlayFailEnv (some [0]) (some [1]) 7 "t" =
      { hasSignificantDiff := false, error := true } ∧
    (processStore overlayFailEnv storeWithBaseline).alertsCreated = [] ∧
    (processStore overlayFailEnv storeWithBaseline).baselineAfter =
      some "https://pub.example.dev/new.png" := by
  decide

/-- Claim C3, amended: when the comparison of equal-dimension decodable
images hits a failure while producing or uploading the highlighted overlay,
compareImages catches it and returns significant false with the error flag,
so the pipeline creates no alert and instead silently advances the baseline
to the new artifact — overlay production failure suppresses alert
creation. -/
theorem processStore_overlay_failure_suppresses_alert
    (env : Env) (store : Store) (buffer baselineBuffer : Buffer)
    (screenshotUrl : String) (P1 P2 : PNGImage)
    (hcap : env.captureAndUpload = Except.ok (buffer, screenshotUrl))
    (ht : truthyStr store.baseline_homepage_url = true)
    (hdl : downloadFromR2 env (extractR2Key env store.baseline_homepage_url) =
      some baselineBuffer)
    (h1 : env.decode baselineBuffer = some P1)
    (h2 : env.decode buffer = some P2)
    (hw : P1.width = P2.width)
    (hh : P1.height = P2.height)
    (hp : (env.pixelmatchCount P1.data P2.data P1.width P1.height : ℚ) /
        ((P1.width : ℚ) * (P1.height : ℚ)) * 100 > DIFF_THRESHOLD_PERCENT)
    (hov : env.overlayUpload store.id env.timestamp = none) :
    compareImages env (some baselineBuffer) (some buffer) store.id env.timestamp =
      { hasSignificantDiff := false, error := true } ∧
    (processStore env store).alertsCreated = [] ∧
    (processStore env store).baselineAfter = some screenshotUrl := by
  have hcmp : compareImages env (some baselineBuffer) (some buffer) store.id env.timestamp =
      { hasSignificantDiff := false, error := true } := by
    simp only [compareImages, Option.some_bind, h1, h2]
    rw [if_neg (by simp [hw, hh])]
    simp only [hov]
  refine ⟨hcmp, ?_⟩
  simp only [processStore, hcap]
  rw [if_pos ht]
  simp only [hdl, hcmp]
  simp

/-- Claim C3, witness for the amended theorem: the overlayFailEnv scenario,
a fully-changed four-pixel image whose overlay upload fails. -/
theorem processStore_overlay_failure_suppresses_alert_witness :
    compareImages overlayFailEnv (some [0]) (some [1]) storeWithBaseline.id
      overlayFailEnv.timestamp = { hasSignificantDiff := false, error := true } ∧
    (processStore overlayFailEnv storeWithBaseline).alertsCreated = [] ∧
    (processStore overlayFailEnv storeWithBaseline).baselineAfter =
      some "https://pub.example.dev/new.png" :=
  processStore_overlay_failure_suppresses_alert overlayFailEnv storeWithBaseline [1] [0]
    "https://pub.example.dev/new.png"
    { width := 2, height := 2, data := [0] } { width := 2, height := 2, data := [1] }
    rfl rfl rfl rfl rfl rfl rfl
    (by norm_num [overlayFailEnv, DIFF_THRESHOLD_PERCENT]) rfl

/-- Connectivity-classified capture failure: the capture threw and its
message contains one of the failure keywords. -/
def connFailure (e : Env) : Prop :=
  ∃ msg, e.captureAndUpload = Except.error msg ∧ isConnectivityError msg = true

/-- Folding connectivity failures over a store adds their number to the
failure counter and inactivates the store exactly when the running count
reaches MAX_FAILURES_BEFORE_INACTIVE. -/
theorem applyAll_connFailures (envs : List Env) (s : Store)
    (hconn : ∀ e ∈ envs, connFailure e)
    (hinv : s.status = StoreStatus.inactive ↔
      MAX_FAILURES_BEFORE_INACTIVE ≤ s.failed_attempts) :
    (applyAll envs s).failed_attempts = s.failed_attempts + envs.length ∧
    ((applyAll envs s).status = StoreStatus.inactive ↔
      MAX_FAILURES_BEFORE_INACTIVE ≤ s.failed_attempts + envs.length) := by
  induction envs generalizing s with
  | nil => simpa [applyAll] using hinv
  | cons e es ih =>
    obtain ⟨msg, hmsg, hcls⟩ := hconn e (List.mem_cons_self e es)
    have hstep : storeAfter e s =
        { s with failed_attempts := s.failed_attempts + 1,
                 status := if MAX_FAILURES_BEFORE_INACTIVE ≤ s.failed_attempts + 1
                   then StoreStatus.inactive else s.status } := by
      simp [storeAfter, processStore, hmsg, hcls]
    have htail : applyAll (e :: es) s = applyAll es (storeAfter e s) := by
      simp [applyAll]
    rw [htail, hstep]
    have hinv2 : (if MAX_FAILURES_BEFORE_INACTIVE ≤ s.failed_attempts + 1
        then StoreStatus.inactive else s.status) = StoreStatus.inactive ↔
        MAX_FAILURES_BEFORE_INACTIVE ≤ s.failed_attempts + 1 := by
      by_cases h5 : MAX_FAILURES_BEFORE_INACTIVE ≤ s.failed_attempts + 1
      · simp [h5]
      · have : ¬ MAX_FAILURES_BEFORE_INACTIVE ≤ s.failed_attempts := fun hle =>
          h5 (Nat.le_succ_of_le hle)
        simp [h5, hinv, this]
    have h := ih { s with failed_attempts := s.failed_attempts + 1,
                          status := if MAX_FAILURES_BEFORE_INACTIVE ≤ s.failed_attempts + 1
                            then StoreStatus.inactive else s.status }
      (fun e2 he2 => hconn e2 (List.mem_cons_of_mem e he2)) hinv2
    refine ⟨?_, ?_⟩
    · rw [h.1]
      show s.failed_attempts + 1 + es.length = s.failed_attempts + (e :: es).length
      simp [List.length_cons]
      omega
    · rw [h.2]
      show MAX_FAILURES_BEFORE_INACTIVE ≤ s.failed_attempts + 1 + es.length ↔
        MAX_FAILURES_BEFORE_INACTIVE ≤ s.failed_attempts + (e :: es).length
      simp only [List.length_cons]
      omega

/-- Claim C7: starting from a clean counter on an active store, N
consecutive connectivity-classified capture failures leave failed_attempts
at N and the status is inactive exactly when N is at least 5; any
successful capture resets the counter to 0, and no processStore invocation
ever reactivates an inactive store. -/
theorem failure_tracker_monotone (envs : List Env) (s : Store)
    (h0 : s.failed_attempts = 0) (hact : s.status = StoreStatus.active)
    (hconn : ∀ e ∈ envs, connFailure e) :
    (applyAll envs s).failed_attempts = envs.length ∧
    ((applyAll envs s).status = StoreStatus.inactive ↔
      MAX_FAILURES_BEFORE_INACTIVE ≤ envs.length) ∧
    (∀ (env2 : Env) (s2 : Store) (b : Buffer) (u : String),
      env2.captureAndUpload = Except.ok (b, u) →
      (storeAfter env2 s2).failed_attempts = 0) ∧
    (∀ (env2 : Env) (s2 : Store),
      (storeAfter env2 s2).status = StoreStatus.active →
      s2.status = StoreStatus.active) := by
  have hinv : s.status = StoreStatus.inactive ↔
      MAX_FAILURES_BEFORE_INACTIVE ≤ s.failed_attempts := by
    rw [hact, h0]
    simp [MAX_FAILURES_BEFORE_INACTIVE]
  have hmain := applyAll_connFailures envs s hconn hinv
  refine ⟨by rw [hmain.1, h0]; omega, by rw [hmain.2, h0]; omega, ?_, ?_⟩
  · intro env2 s2 b u hc
    show (processStore env2 s2).failedAttemptsAfter = 0
    simp only [processStore, hc]
    repeat' split
    all_goals rfl
  · intro env2 s2 h
    have key : (processStore env2 s2).statusAfter = s2.status ∨
        (processStore env2 s2).statusAfter = StoreStatus.inactive := by
      cases hc : env2.captureAndUpload with
      | error msg =>
        simp only [processStore, hc]
        repeat' split
        all_goals simp
      | ok pair =>
        obtain ⟨b, u⟩ := pair
        simp only [processStore, hc]
        repeat' split
        all_goals simp
    have h2 : (processStore env2 s2).statusAfter = StoreStatus.active := h
    rcases key with k | k
    · rw [k] at h2; exact h2
    · rw [k] at h2; cases h2

/-- Claim C7, witness: five consecutive connection-refused failures leave
the counter at five and the store inactive. -/
theorem failure_tracker_monotone_witness :
    (applyAll (List.replicate 5 connFailEnv) storeWithBaseline).failed_attempts = 5 ∧
    (applyAll (List.replicate 5 connFailEnv) storeWithBaseline).status =
      StoreStatus.inactive := by
  have h := failure_tracker_monotone (List.replicate 5 connFailEnv) storeWithBaseline
    rfl rfl (by
      intro e he
      rw [List.eq_of_mem_replicate he]
      exact ⟨"net::ERR_CONNECTION_REFUSED at https://example.com", rfl, by decide⟩)
  refine ⟨by simpa using h.1, ?_⟩
  exact (by simpa using h.2.1 : _ ↔ MAX_FAILURES_BEFORE_INACTIVE ≤ 5).mpr
    (by simp [MAX_FAILURES_BEFORE_INACTIVE])

end YayaUptime
